import Mathlib

/-!
Shallow embedding of the wallet-authentication core of
`cardano_blockchain_viewer` (`src/api/auth.rs`), together with theorems
settling the frozen claims about it.

Modelling conventions:
* Rust `String` / `&str` and `Vec<u8>` values are both modelled as `List Nat`
  of their (UTF-8, respectively raw) bytes; this makes Rust's byte-indexed
  string slicing, `is_char_boundary`, and byte-wise comparisons direct.
* Machine integers: `chrono` timestamps are `Int`; byte values are `Nat`
  (hex decoding only ever produces values `< 256`).
* The external Ed25519 primitive (`ed25519_dalek`), the external address
  library (`cardano_serialization_lib`) and the external JWT encoder are
  opaque collaborators of this core; they are passed in as explicit function
  parameters, exactly at the interface the Rust code uses them.
* `ciborium` CBOR serialization/deserialization is modelled by an executable
  definite-length CBOR codec (`decodeCbor` / `encodeItem`).  Indefinite-length
  encodings, 8-byte length arguments, floats and tags are not modelled; none
  of the claims depends on those encoding variants.
* `tracing` log macros evaluate their field expressions at the `info` level
  (the level installed in `main.rs`), so string-slice expressions inside
  `info!`/`warn!` arguments are modelled as evaluated; slices that can fail
  Rust's char-boundary check are modelled as explicit `panic` outcomes.
-/

/-! ## Bytes, Rust string slicing, hex, UTF-8 -/

abbrev Bytes := List Nat

/-- UTF-8 encoding of one Unicode scalar value. -/
def charUtf8 (c : Nat) : Bytes :=
  if c < 0x80 then [c]
  else if c < 0x800 then [0xC0 + c / 64, 0x80 + c % 64]
  else if c < 0x10000 then [0xE0 + c / 4096, 0x80 + c / 64 % 64, 0x80 + c % 64]
  else [0xF0 + c / 262144, 0x80 + c / 4096 % 64, 0x80 + c / 64 % 64, 0x80 + c % 64]

/-- UTF-8 bytes of a Lean string literal (used for the fixed message pieces
that the Rust code builds with `format!`). -/
def strBytes (s : String) : Bytes :=
  s.data.foldr (fun c acc => charUtf8 c.toNat ++ acc) []

/-- A UTF-8 continuation byte (`0x80 ≤ b < 0xC0`). -/
def isContByte (b : Nat) : Bool :=
  decide (0x80 ≤ b) && decide (b < 0xC0)

/-- Rust `str::is_char_boundary i` on the byte list of a string. -/
def charBoundary (s : Bytes) (i : Nat) : Bool :=
  i == 0 || i == s.length || (decide (i < s.length) && !isContByte (s.getD i 0))

/-- Rust `&s[..i]` succeeds (does not panic): `i` within bounds and a char
boundary. -/
def sliceOk (s : Bytes) (i : Nat) : Bool :=
  decide (i ≤ s.length) && charBoundary s i

/-- Rust `&s[..s.len().min k]` succeeds. -/
def minSliceOk (s : Bytes) (k : Nat) : Bool :=
  sliceOk s (Nat.min s.length k)

/-- Value of an ASCII hex digit, as the Rust `hex` crate accepts it
(`0-9`, `a-f`, `A-F`). -/
def hexDigitVal (c : Nat) : Option Nat :=
  if 48 ≤ c ∧ c ≤ 57 then some (c - 48)
  else if 97 ≤ c ∧ c ≤ 102 then some (c - 87)
  else if 65 ≤ c ∧ c ≤ 70 then some (c - 55)
  else none

/-- Rust `hex::decode` on the bytes of the input string: fails on odd length
or any non-hex character. -/
def hexDecode : Bytes → Option Bytes
  | [] => some []
  | [_] => none
  | c1 :: c2 :: rest =>
    match hexDigitVal c1, hexDigitVal c2, hexDecode rest with
    | some h, some l, some ds => some ((16 * h + l) :: ds)
    | _, _, _ => none

/-- Lowercase hex digit character for a nibble (Rust `hex::encode` output
alphabet). -/
def hexDigitChar (n : Nat) : Nat :=
  if n < 10 then 48 + n else 87 + n

/-- Rust `hex::encode`: two lowercase hex characters per byte. -/
def hexEncode : Bytes → Bytes
  | [] => []
  | b :: rest => hexDigitChar (b / 16) :: hexDigitChar (b % 16) :: hexEncode rest

/-- State machine for strict UTF-8 validation: `n` pending continuation
bytes, with `lo`/`hi` the admissible range of the next byte (the first
continuation byte of a sequence is range-restricted to exclude overlong
forms, surrogates and values above U+10FFFF, exactly as Rust's
`String::from_utf8` does). -/
def utf8Go : Nat → Nat → Nat → Bytes → Bool
  | 0, _, _, [] => true
  | 0, _, _, b :: rest =>
    if b < 0x80 then utf8Go 0 0 0 rest
    else if 0xC2 ≤ b && b ≤ 0xDF then utf8Go 1 0x80 0xBF rest
    else if b == 0xE0 then utf8Go 2 0xA0 0xBF rest
    else if (0xE1 ≤ b && b ≤ 0xEC) || b == 0xEE || b == 0xEF then utf8Go 2 0x80 0xBF rest
    else if b == 0xED then utf8Go 2 0x80 0x9F rest
    else if b == 0xF0 then utf8Go 3 0x90 0xBF rest
    else if 0xF1 ≤ b && b ≤ 0xF3 then utf8Go 3 0x80 0xBF rest
    else if b == 0xF4 then utf8Go 3 0x80 0x8F rest
    else false
  | _ + 1, _, _, [] => false
  | n + 1, lo, hi, c :: rest =>
    if lo ≤ c && c ≤ hi then utf8Go n 0x80 0xBF rest else false

/-- Rust `String::from_utf8` succeeds on these bytes. -/
def utf8Valid (l : Bytes) : Bool := utf8Go 0 0 0 l

/-- Decimal digit bytes of a nonnegative integer (Rust `u64::to_string`). -/
def decimalBytes (n : Nat) : Bytes :=
  (Nat.toDigits 10 n).map Char.toNat

/-! ## CBOR values and the definite-length codec (model of `ciborium`) -/

/-- CBOR values, following `ciborium::value::Value` in the constructors the
authentication code can produce or inspect. -/
inductive CborValue where
  | int (n : Int)
  | bytes (b : Bytes)
  | text (s : Bytes)
  | array (xs : List CborValue)
  | map (xs : List (CborValue × CborValue))
  | bool (b : Bool)
  | null

/-- Read one CBOR head (major type, argument, remaining input).  Length
arguments of 1, 2 and 4 bytes are supported (additional info `< 24`, `24`,
`25`, `26`); 8-byte arguments and indefinite lengths are rejected. -/
def decodeHead (l : Bytes) : Option (Nat × Nat × Bytes) :=
  match l with
  | [] => none
  | b :: rest =>
    let maj := b / 32
    let info := b % 32
    if info < 24 then some (maj, info, rest)
    else if info = 24 then
      match rest with
      | a :: r => some (maj, a, r)
      | _ => none
    else if info = 25 then
      match rest with
      | a :: b2 :: r => some (maj, a * 256 + b2, r)
      | _ => none
    else if info = 26 then
      match rest with
      | a :: b2 :: c :: d :: r => some (maj, ((a * 256 + b2) * 256 + c) * 256 + d, r)
      | _ => none
    else none

mutual

/-- Decode one CBOR item (fuel-indexed; `decodeCbor` supplies enough fuel). -/
def decodeItem : Nat → Bytes → Option (CborValue × Bytes)
  | 0, _ => none
  | fuel + 1, l =>
    match decodeHead l with
    | none => none
    | some (maj, arg, rest) =>
      match maj with
      | 0 => some (.int (Int.ofNat arg), rest)
      | 1 => some (.int (-1 - Int.ofNat arg), rest)
      | 2 => if arg ≤ rest.length then some (.bytes (rest.take arg), rest.drop arg) else none
      | 3 => if arg ≤ rest.length then some (.text (rest.take arg), rest.drop arg) else none
      | 4 =>
        match decodeItems fuel arg rest with
        | some (vs, r) => some (.array vs, r)
        | none => none
      | 5 =>
        match decodePairs fuel arg rest with
        | some (vs, r) => some (.map vs, r)
        | none => none
      | _ =>
        match l with
        | 0xF4 :: r => some (.bool false, r)
        | 0xF5 :: r => some (.bool true, r)
        | 0xF6 :: r => some (.null, r)
        | _ => none

/-- Decode a fixed count of consecutive CBOR items. -/
def decodeItems : Nat → Nat → Bytes → Option (List CborValue × Bytes)
  | _, 0, l => some ([], l)
  | 0, _ + 1, _ => none
  | fuel + 1, n + 1, l =>
    match decodeItem fuel l with
    | none => none
    | some (v, r) =>
      match decodeItems fuel n r with
      | none => none
      | some (vs, r2) => some (v :: vs, r2)

/-- Decode a fixed count of consecutive CBOR key/value pairs. -/
def decodePairs : Nat → Nat → Bytes → Option (List (CborValue × CborValue) × Bytes)
  | _, 0, l => some ([], l)
  | 0, _ + 1, _ => none
  | fuel + 1, n + 1, l =>
    match decodeItem fuel l with
    | none => none
    | some (k, r) =>
      match decodeItem fuel r with
      | none => none
      | some (v, r2) =>
        match decodePairs fuel n r2 with
        | none => none
        | some (vs, r3) => some ((k, v) :: vs, r3)

end

/-- Model of `ciborium::from_reader` on a byte buffer: decode one item
(each item consumes at least one byte, so `length + 1` fuel always
suffices). -/
def decodeCbor (l : Bytes) : Option CborValue :=
  match decodeItem (l.length + 1) l with
  | some (v, _) => some v
  | none => none

/-- Minimal-length CBOR head encoding for major type `maj` and argument
`n` (as `ciborium` serializes definite lengths). -/
def encodeArg (maj : Nat) (n : Nat) : Bytes :=
  if n < 24 then [maj * 32 + n]
  else if n < 256 then [maj * 32 + 24, n]
  else if n < 65536 then [maj * 32 + 25, n / 256, n % 256]
  else [maj * 32 + 26, n / 16777216 % 256, n / 65536 % 256, n / 256 % 256, n % 256]

mutual

/-- Serialize a CBOR value (model of `ciborium::ser::into_writer`, which
never fails on these constructors). -/
def encodeItem : CborValue → Bytes
  | .int n => if 0 ≤ n then encodeArg 0 n.toNat else encodeArg 1 (-1 - n).toNat
  | .bytes b => encodeArg 2 b.length ++ b
  | .text s => encodeArg 3 s.length ++ s
  | .array xs => encodeArg 4 xs.length ++ encodeItems xs
  | .map xs => encodeArg 5 xs.length ++ encodePairs xs
  | .bool b => if b then [0xF5] else [0xF4]
  | .null => [0xF6]

/-- Serialize consecutive CBOR items. -/
def encodeItems : List CborValue → Bytes
  | [] => []
  | v :: vs => encodeItem v ++ encodeItems vs

/-- Serialize consecutive CBOR key/value pairs. -/
def encodePairs : List (CborValue × CborValue) → Bytes
  | [] => []
  | (k, v) :: vs => encodeItem k ++ encodeItem v ++ encodePairs vs

end

/-! ## Envelope parsing (`extract_signature_from_cose_sign1`,
`extract_public_key_from_cose`) -/

/-- Error cases of the two COSE parsers.  Each constructor stands for the
exact `Err(String)` the Rust code builds at the corresponding return (the
human-readable text and interpolated lengths are dropped). -/
inductive CoseErr where
  /-- "Failed to parse COSE_Sign1 CBOR: …" / "Failed to parse CBOR: …" -/
  | parseCbor
  /-- "COSE_Sign1 must be a CBOR array" -/
  | notArray
  /-- "COSE_Sign1 must have 4 elements, got …" -/
  | wrongCount
  /-- "COSE_Sign1 protected headers must be bytes" -/
  | protectedNotBytes
  /-- "COSE_Sign1 payload must be bytes or null" -/
  | payloadNotBytes
  /-- "COSE_Sign1 signature must be bytes" -/
  | sigNotBytes
  /-- "Ed25519 signature must be 64 bytes, got …" -/
  | sigWrongLen
  /-- "COSE_Key must be a CBOR map" -/
  | notMap
  /-- "Public key must be 32 bytes, got …" -/
  | keyWrongLen
  /-- "Public key value must be bytes" -/
  | keyNotBytes
  /-- "Could not find public key (label -2) in COSE_Key structure" -/
  | keyMissing
  deriving Repr, DecidableEq

/-- The structural part of `extract_signature_from_cose_sign1`: field checks
on an already-decoded CBOR value, in the order the Rust code performs them
(count, protected headers at index 0, payload at index 2, signature at
index 3, signature length). -/
def extractFromValue : CborValue → Except CoseErr (Bytes × Bytes × Bytes)
  | .array [a0, _a1, a2, a3] =>
    match a0 with
    | .bytes protected_headers =>
      match a2 with
      | .bytes payload =>
        match a3 with
        | .bytes signature_bytes =>
          if signature_bytes.length = 64 then
            Except.ok (signature_bytes, payload, protected_headers)
          else Except.error CoseErr.sigWrongLen
        | _ => Except.error CoseErr.sigNotBytes
      | .null =>
        match a3 with
        | .bytes signature_bytes =>
          if signature_bytes.length = 64 then
            Except.ok (signature_bytes, [], protected_headers)
          else Except.error CoseErr.sigWrongLen
        | _ => Except.error CoseErr.sigNotBytes
      | _ => Except.error CoseErr.payloadNotBytes
    | _ => Except.error CoseErr.protectedNotBytes
  | .array _ => Except.error CoseErr.wrongCount
  | _ => Except.error CoseErr.notArray

/-- `extract_signature_from_cose_sign1` (auth.rs:548-619): a 64-byte input is
taken as a raw signature with empty payload and headers; anything else is
CBOR-decoded and destructured as a COSE_Sign1 array. -/
def extract_signature_from_cose_sign1 (cose_sign1_bytes : Bytes) :
    Except CoseErr (Bytes × Bytes × Bytes) :=
  if cose_sign1_bytes.length = 64 then Except.ok (cose_sign1_bytes, [], [])
  else
    match decodeCbor cose_sign1_bytes with
    | none => Except.error CoseErr.parseCbor
    | some v => extractFromValue v

/-- The loop of `extract_public_key_from_cose`: scan the decoded CBOR map for
the first entry whose key is the integer `-2`, and return on it (32-byte
bytes value, or the corresponding error) as the Rust `for` loop does. -/
def lookupNeg2 : List (CborValue × CborValue) → Except CoseErr Bytes
  | [] => Except.error CoseErr.keyMissing
  | (k, v) :: rest =>
    match k with
    | .int n =>
      if n = -2 then
        match v with
        | .bytes b =>
          if b.length = 32 then Except.ok b else Except.error CoseErr.keyWrongLen
        | _ => Except.error CoseErr.keyNotBytes
      else lookupNeg2 rest
    | _ => lookupNeg2 rest

/-- `extract_public_key_from_cose` (auth.rs:495-545): a 32-byte input is the
raw key; anything else is CBOR-decoded as a COSE_Key map and the label `-2`
entry extracted. -/
def extract_public_key_from_cose (cose_key_bytes : Bytes) : Except CoseErr Bytes :=
  if cose_key_bytes.length = 32 then Except.ok cose_key_bytes
  else
    match decodeCbor cose_key_bytes with
    | none => Except.error CoseErr.parseCbor
    | some v =>
      match v with
      | .map m => lookupNeg2 m
      | _ => Except.error CoseErr.notMap

/-! ## Signature verification (`verify_cardano_signature`) -/

/-- The external `ed25519_dalek` primitive, at the two entry points the code
uses: `VerifyingKey::from_bytes` success, and `verify` of (key bytes,
message bytes, signature bytes). -/
structure Ed25519 where
  keyValid : Bytes → Bool
  verify : Bytes → Bytes → Bytes → Bool

/-- The COSE `Sig_structure` bytes the code builds for verification method 1
(auth.rs:414-433): CBOR of `["Signature1", protected_headers, external_aad
(empty), payload]`. -/
def sigStructureBytes (protected_headers payload : Bytes) : Bytes :=
  encodeItem (.array
    [.text (strBytes "Signature1"), .bytes protected_headers, .bytes [], .bytes payload])

/-- Step 7 of `verify_cardano_signature` (auth.rs:400-491): the ordered
candidate sequence, returning on the first candidate that verifies. -/
def tryCandidates (E : Ed25519) (key message payload protected_headers signature : Bytes) :
    Bool :=
  let message_hex_bytes := hexEncode message
  if (decide (protected_headers ≠ []) || decide (payload ≠ [])) &&
      E.verify key (sigStructureBytes protected_headers payload) signature then true
  else if E.verify key message signature then true
  else if decide (payload ≠ []) && decide (payload = message) &&
      E.verify key payload signature then true
  else if E.verify key message_hex_bytes signature then true
  else if decide (payload ≠ []) && utf8Valid payload &&
      (match hexDecode payload with
       | some decoded_payload =>
         decide (decoded_payload = message) && E.verify key decoded_payload signature
       | none => false) then true
  else false

/-- Results of `verify_cardano_signature`: `Result<bool, String>` in Rust,
plus an explicit `panic` outcome for the reachable string-slice panic in its
step-3 logging. -/
inductive VcsResult where
  | panic
  | err (e : CoseErr)
  | errHex (sig : Bool)
  | errKeyInvalid
  | ok (b : Bool)
  deriving Repr, DecidableEq

/-- `verify_cardano_signature` (auth.rs:289-492).

The address binder (`verify_address_from_public_key`, backed by
`cardano_serialization_lib`) is passed in as `binder`; its verdict is
matched only to choose a log line and then dropped, exactly as the Rust
`match` at auth.rs:376-392 does.

The step-3 logging at auth.rs:354 slices the payload to
`payload_str.len().min(50)` bytes, which panics when that cut is not a char
boundary; guarded by: payload non-empty, payload ≠ message bytes, payload
valid UTF-8. -/
def verify_cardano_signature (E : Ed25519)
    (binder : Bytes → Bytes → Except String Bool)
    (address message signature_hex public_key_hex : Bytes) : VcsResult :=
  match hexDecode signature_hex with
  | none => VcsResult.errHex true
  | some signature_bytes =>
    match hexDecode public_key_hex with
    | none => VcsResult.errHex false
    | some public_key_bytes =>
      match extract_signature_from_cose_sign1 signature_bytes with
      | Except.error e => VcsResult.err e
      | Except.ok (raw_signature, payload, protected_headers) =>
        if decide (payload ≠ []) && decide (payload ≠ message) && utf8Valid payload &&
            !minSliceOk payload 50 then VcsResult.panic
        else
          match extract_public_key_from_cose public_key_bytes with
          | Except.error e => VcsResult.err e
          | Except.ok raw_public_key =>
            let _bindVerdict := binder address raw_public_key
            if !E.keyValid raw_public_key then VcsResult.errKeyInvalid
            else
              VcsResult.ok
                (tryCandidates E raw_public_key message payload protected_headers
                  raw_signature)

/-! ## Challenge store and the two handlers (`create_challenge`,
`verify_signature`) -/

/-- `ChallengeData` (auth.rs:18-23). -/
structure ChallengeData where
  nonce : Bytes
  message : Bytes
  timestamp : Int
  deriving Repr, DecidableEq

/-- The `HashMap<String, ChallengeData>` behind the shared
`ChallengeStore`, as an association list with at most one entry per key. -/
abbrev ChallengeStore := List (Bytes × ChallengeData)

/-- `HashMap::get`. -/
def storeGet : ChallengeStore → Bytes → Option ChallengeData
  | [], _ => none
  | (k, v) :: rest, key => if k = key then some v else storeGet rest key

/-- `HashMap::insert` (replaces any existing entry for the key). -/
def storeInsert (s : ChallengeStore) (k : Bytes) (v : ChallengeData) : ChallengeStore :=
  (k, v) :: s.filter (fun p => !decide (p.1 = k))

/-- `HashMap::remove`. -/
def storeRemove (s : ChallengeStore) (k : Bytes) : ChallengeStore :=
  s.filter (fun p => !decide (p.1 = k))

/-- `HashMap::retain` on the stored values. -/
def storeRetain (s : ChallengeStore) (f : ChallengeData → Bool) : ChallengeStore :=
  s.filter (fun p => f p.2)

/-- `normalize_address_format` (auth.rs:272-283): both branches return the
input unchanged. -/
def normalize_address_format (address : Bytes) : Bytes :=
  if (hexDecode address).isSome && address.length % 2 == 0 then address
  else address

/-- Outcomes of the `create_challenge` handler: the 400 response for an
empty address, the string-slice panic in its logging, or the JSON challenge
response. -/
inductive CreateResult where
  | badRequest
  | panic
  | ok (message nonce : Bytes)
  deriving Repr, DecidableEq

/-- Fixed prefix of the challenge message built at auth.rs:86-90, up to the
nonce. -/
def challengeMsgHead : Bytes :=
  strBytes "Sign this message to authenticate with Cardano Blockchain Viewer\n\nNonce: "

/-- Fixed middle piece of the challenge message, between the nonce and the
RFC 3339 timestamp. -/
def challengeMsgMid : Bytes := strBytes "\nTimestamp: "

/-- `create_challenge` (auth.rs:57-115).  `now` is
`chrono::Utc::now().timestamp()`, `nowRfc` the bytes of
`chrono::Utc::now().to_rfc3339()`, and `nonceVal` the random `u64`; all
three are inputs of the model.  The `info!` at auth.rs:76-80 slices both the
raw and the normalized address to 16 bytes before anything is stored, so a
failed boundary check panics with the store unchanged. -/
def create_challenge (store : ChallengeStore) (now : Int) (nonceVal : Nat)
    (nowRfc : Bytes) (address : Bytes) : CreateResult × ChallengeStore :=
  if address = [] then (CreateResult.badRequest, store)
  else
    let normalized_address := normalize_address_format address
    if !(sliceOk address 16 && sliceOk normalized_address 16) then
      (CreateResult.panic, store)
    else
      let nonce_str := decimalBytes nonceVal
      let timestamp := now
      let message := challengeMsgHead ++ nonce_str ++ challengeMsgMid ++ nowRfc
      let challenges :=
        storeInsert store normalized_address
          { nonce := nonce_str, message := message, timestamp := timestamp }
      let cutoff := timestamp - 300
      let challenges := storeRetain challenges (fun data => decide (data.timestamp > cutoff))
      (CreateResult.ok message nonce_str, challenges)

/-- The JSON body of a `/verify` request (`VerifyRequest`, auth.rs:44-50). -/
structure VerifyPayload where
  address : Bytes
  stake_address : Option Bytes
  signature : Bytes
  key : Bytes

/-- Outcomes of the `verify_signature` handler, one per `return` site:
400 for missing fields, the three 401 responses, the two 500 responses,
string-slice panics, and the JWT success response. -/
inductive VerifyResult where
  | badRequest
  | noChallenge
  | expired
  | invalidSignature
  | verifyError (e : VcsResult)
  | tokenError
  | panic
  | ok (token : Bytes)
  deriving Repr, DecidableEq

/-- The external collaborators `verify_signature` calls: the Ed25519
primitive, the address binder, `convert_to_bech32`'s library-backed
conversion, and `JwtManager::generate_token`. -/
structure VerifyDeps where
  E : Ed25519
  binder : Bytes → Bytes → Except String Bool
  toBech32 : Bytes → Except String Bytes
  generate_token : Bytes → Option Bytes → Except String Bytes

/-- `convert_to_bech32(...).unwrap_or_else(|_| normalized_address.clone())`
(auth.rs:242-246): the library-backed conversion with fallback to the
normalized address. -/
def resolveBech32 (D : VerifyDeps) (a : Bytes) : Bytes :=
  match D.toBech32 a with
  | Except.ok b => b
  | Except.error _ => a

/-- `verify_signature` (auth.rs:117-265), returning the response and the
final challenge store.

Slice panics modelled (all evaluated because the `info` log level is
active): the `min(16)` slices at auth.rs:132-133, the plain `[..16]` slices
at auth.rs:160 and auth.rs:171/180, the `min(16)`/`min(32)` slices on the
invalid-signature path at auth.rs:203-207, and the `min(20)` slice of the
bech32 address at auth.rs:248 (reached after the challenge was already
removed). -/
def verify_signature (D : VerifyDeps) (store : ChallengeStore) (now : Int)
    (p : VerifyPayload) : VerifyResult × ChallengeStore :=
  if decide (p.address = []) || decide (p.signature = []) then
    (VerifyResult.badRequest, store)
  else
    let normalized_address := normalize_address_format p.address
    if !(minSliceOk p.address 16 && minSliceOk normalized_address 16) then
      (VerifyResult.panic, store)
    else
      match (storeGet store normalized_address).orElse (fun _ => storeGet store p.address) with
      | none => (VerifyResult.noChallenge, store)
      | some challenge_data =>
        if now - challenge_data.timestamp > 300 then
          if !sliceOk p.address 16 then (VerifyResult.panic, store)
          else (VerifyResult.expired, store)
        else if !sliceOk p.address 16 then (VerifyResult.panic, store)
        else
          match verify_cardano_signature D.E D.binder normalized_address
              challenge_data.message p.signature p.key with
          | VcsResult.panic => (VerifyResult.panic, store)
          | VcsResult.err e => (VerifyResult.verifyError (VcsResult.err e), store)
          | VcsResult.errHex b => (VerifyResult.verifyError (VcsResult.errHex b), store)
          | VcsResult.errKeyInvalid => (VerifyResult.verifyError VcsResult.errKeyInvalid, store)
          | VcsResult.ok false =>
            if !(minSliceOk normalized_address 16 && minSliceOk normalized_address 32) then
              (VerifyResult.panic, store)
            else (VerifyResult.invalidSignature, store)
          | VcsResult.ok true =>
            let challenges := storeRemove (storeRemove store normalized_address) p.address
            let bech32_address := resolveBech32 D normalized_address
            if !minSliceOk bech32_address 20 then (VerifyResult.panic, challenges)
            else
              match D.generate_token bech32_address p.stake_address with
              | Except.error _ => (VerifyResult.tokenError, challenges)
              | Except.ok token => (VerifyResult.ok token, challenges)

/-! ## Helper lemmas -/

theorem normalize_address_id (address : Bytes) :
    normalize_address_format address = address := by
  unfold normalize_address_format
  split <;> rfl

theorem storeGet_remove (s : ChallengeStore) (k : Bytes) :
    storeGet (storeRemove s k) k = none := by
  induction s with
  | nil => rfl
  | cons hd tl ih =>
    by_cases h : hd.1 = k
    · simpa [storeRemove, List.filter, h] using ih
    · simpa [storeRemove, List.filter, h, storeGet] using ih

theorem storeRemove_idem (s : ChallengeStore) (k : Bytes) :
    storeRemove (storeRemove s k) k = storeRemove s k := by
  unfold storeRemove
  rw [List.filter_filter]
  congr 1
  funext p
  cases h : decide (p.1 = k) <;> simp [h]

theorem minSliceOk_of_sliceOk16 (s : Bytes) (h : sliceOk s 16 = true) :
    minSliceOk s 16 = true := by
  unfold sliceOk at h
  have h16 : 16 ≤ s.length := by
    have := (Bool.and_eq_true _ _).mp h
    exact of_decide_eq_true this.1
  have hmin : Nat.min s.length 16 = 16 := Nat.min_eq_right h16
  unfold minSliceOk
  rw [hmin]
  unfold sliceOk
  exact h

theorem minSliceOk_of_le (s : Bytes) (k : Nat) (h : s.length ≤ k) :
    minSliceOk s k = true := by
  have hmin : Nat.min s.length k = s.length := Nat.min_eq_left h
  unfold minSliceOk
  rw [hmin]
  unfold sliceOk charBoundary
  simp

theorem hexDigitVal_lt_128 (c v : Nat) (h : hexDigitVal c = some v) : c < 128 := by
  unfold hexDigitVal at h
  split at h
  · omega
  · split at h
    · omega
    · split at h
      · omega
      · exact absurd h (by simp)

theorem hexDecode_utf8Valid : ∀ (p d : Bytes), hexDecode p = some d → utf8Valid p = true
  | [], _, _ => rfl
  | [_], _, h => by simp [hexDecode] at h
  | c1 :: c2 :: rest, d, h => by
    unfold hexDecode at h
    cases h1 : hexDigitVal c1 with
    | none => rw [h1] at h; exact absurd h (by simp)
    | some v1 =>
      cases h2 : hexDigitVal c2 with
      | none => rw [h1, h2] at h; exact absurd h (by simp)
      | some v2 =>
        cases h3 : hexDecode rest with
        | none => rw [h1, h2, h3] at h; exact absurd h (by simp)
        | some ds =>
          have hc1 : c1 < 128 := hexDigitVal_lt_128 c1 v1 h1
          have hc2 : c2 < 128 := hexDigitVal_lt_128 c2 v2 h2
          have ih := hexDecode_utf8Valid rest ds h3
          unfold utf8Valid at ih ⊢
          simp only [utf8Go]
          rw [if_pos (by omega : c1 < 0x80), if_pos (by omega : c2 < 0x80)]
          exact ih

theorem hexDigitVal_hexDigitChar (n : Nat) (h : n < 16) :
    hexDigitVal (hexDigitChar n) = some n := by
  interval_cases n <;> rfl

theorem hexDecode_hexEncode : ∀ (x : Bytes), (∀ b ∈ x, b < 256) →
    hexDecode (hexEncode x) = some x
  | [], _ => rfl
  | b :: rest, h => by
    have hb : b < 256 := h b (List.mem_cons_self b rest)
    have hrest := hexDecode_hexEncode rest (fun c hc => h c (List.mem_cons_of_mem b hc))
    have hdiv : 16 * (b / 16) + b % 16 = b := by omega
    unfold hexEncode hexDecode
    rw [hexDigitVal_hexDigitChar (b / 16) (by omega),
      hexDigitVal_hexDigitChar (b % 16) (by omega), hrest]
    simp [hdiv]

/-! ## Concrete instances used by witnesses and counterexamples -/

/-- An Ed25519 oracle that accepts every (key, message, signature) triple:
stands for a run in which the client supplied a genuinely valid signature
over whichever candidate byte string is tried first. -/
def edAcceptAll : Ed25519 := { keyValid := fun _ => true, verify := fun _ _ _ => true }

/-- A binder verdict as `verify_address_from_public_key` produces on a key
hash mismatch (auth.rs:683). -/
def binderMismatch : Bytes → Bytes → Except String Bool :=
  fun _ _ => Except.error "Public key does not match the address"

/-- A binder verdict for a key that matches the claimed address. -/
def binderOk : Bytes → Bytes → Except String Bool := fun _ _ => Except.ok true

/-- A bech32 conversion that succeeds and returns the address unchanged. -/
def bech32Id : Bytes → Except String Bytes := fun a => Except.ok a

/-- A JWT issuer that succeeds with a fixed token. -/
def tokenIssuerOk : Bytes → Option Bytes → Except String Bytes :=
  fun _ _ => Except.ok (strBytes "token")

/-- A JWT issuer that fails (as `JwtManager::generate_token` can,
jwt.rs:28-53). -/
def tokenIssuerFail : Bytes → Option Bytes → Except String Bytes :=
  fun _ _ => Except.error "Failed to encode JWT"

/-- All collaborators succeeding and the binder accepting. -/
def depsOk : VerifyDeps :=
  { E := edAcceptAll, binder := binderOk, toBech32 := bech32Id,
    generate_token := tokenIssuerOk }

/-- Collaborators succeeding except the JWT issuer. -/
def depsTokenFail : VerifyDeps :=
  { E := edAcceptAll, binder := binderOk, toBech32 := bech32Id,
    generate_token := tokenIssuerFail }

/-- Collaborators succeeding but the address binder reporting a key/address
mismatch. -/
def depsBindFail : VerifyDeps :=
  { E := edAcceptAll, binder := binderMismatch, toBech32 := bech32Id,
    generate_token := tokenIssuerOk }

/-- A 20-byte ASCII address (hex-shaped: twenty `a` characters). -/
def addrA : Bytes := List.replicate 20 97

/-- A stored challenge for `addrA`, issued at time 0. -/
def cdA : ChallengeData :=
  { nonce := decimalBytes 7, message := strBytes "challenge message", timestamp := 0 }

/-- A store holding exactly the challenge for `addrA`. -/
def storeA : ChallengeStore := [(addrA, cdA)]

/-- Hex text of a 64-byte (all-zero) raw signature envelope. -/
def sigHexRaw64 : Bytes := List.replicate 128 48

/-- Hex text of a 32-byte (all-zero) raw public key envelope. -/
def keyHexRaw32 : Bytes := List.replicate 64 48

/-- A `/verify` request body for `addrA` carrying the raw envelopes. -/
def payloadA : VerifyPayload :=
  { address := addrA, stake_address := none, signature := sigHexRaw64, key := keyHexRaw32 }

/-! ## Claims -/

/-- C10: `normalize_address_format` is the identity function: for every
input string (hex-shaped or not) it returns the input unchanged, so the
challenge lookup under the "normalized" key coincides with the lookup under
the address string the client supplied, and no hex/bech32 unification ever
occurs. -/
theorem c10_normalize_is_identity :
    (∀ address : Bytes, normalize_address_format address = address) ∧
    (∀ (store : ChallengeStore) (address : Bytes),
      (storeGet store (normalize_address_format address)).orElse
        (fun _ => storeGet store address) = storeGet store address) := by
  refine ⟨normalize_address_id, fun store address => ?_⟩
  rw [normalize_address_id]
  cases storeGet store address <;> rfl

/-- C4: a stored challenge whose `issued_at` lies more than 300 seconds in
the past makes `verify_and_issue_session` answer with the expired-challenge
`Unauthorized` response and leave the store unchanged; the conclusion holds
for every choice of the cryptographic collaborators `D` and of the
submitted signature and key, so the expiry check precedes (and preempts)
all cryptographic verification. -/
theorem c4_expired_challenge_rejected (D : VerifyDeps) (store : ChallengeStore)
    (now : Int) (p : VerifyPayload) (cd : ChallengeData)
    (hA : p.address ≠ []) (hS : p.signature ≠ [])
    (hSlice : sliceOk p.address 16 = true)
    (hGet : storeGet store p.address = some cd)
    (hExp : now - cd.timestamp > 300) :
    verify_signature D store now p = (VerifyResult.expired, store) := by
  have hMin : minSliceOk p.address 16 = true := minSliceOk_of_sliceOk16 _ hSlice
  unfold verify_signature
  simp only [normalize_address_id]
  simp [hA, hS, hMin, hGet, hSlice, hExp, Option.orElse]

/-- Witness for C4: a concrete expired challenge is rejected even though
every cryptographic collaborator accepts. -/
theorem c4_witness :
    verify_signature depsOk storeA 1000 payloadA = (VerifyResult.expired, storeA) :=
  c4_expired_challenge_rejected depsOk storeA 1000 payloadA cdA
    (by decide) (by decide) (by decide) (by decide) (by decide)

/-- Case characterization of `verify_signature`: either the store is
returned unchanged (all outcomes up to and including signature
verification), or the challenge entry has been removed (JWT-issuance
failure, the bech32-logging panic, or success). -/
theorem verify_signature_cases (D : VerifyDeps) (store : ChallengeStore) (now : Int)
    (p : VerifyPayload) :
    ((verify_signature D store now p).2 = store ∧
     ((verify_signature D store now p).1 = VerifyResult.badRequest ∨
      (verify_signature D store now p).1 = VerifyResult.noChallenge ∨
      (verify_signature D store now p).1 = VerifyResult.expired ∨
      (verify_signature D store now p).1 = VerifyResult.panic ∨
      (∃ e, (verify_signature D store now p).1 = VerifyResult.verifyError e) ∨
      (verify_signature D store now p).1 = VerifyResult.invalidSignature)) ∨
    ((verify_signature D store now p).2 =
       storeRemove (storeRemove store (normalize_address_format p.address)) p.address ∧
     ((verify_signature D store now p).1 = VerifyResult.tokenError ∨
      (verify_signature D store now p).1 = VerifyResult.panic ∨
      ∃ t, (verify_signature D store now p).1 = VerifyResult.ok t)) := by
  unfold verify_signature
  dsimp only
  repeat' split
  all_goals first
    | exact Or.inl ⟨rfl, by simp⟩
    | exact Or.inr ⟨rfl, by simp⟩

/-- Counterexample to C2: the challenge for `addrA` is pending and
unexpired, every verification step passes, but JWT issuance fails; the call
returns the session-issuance error, yet the stored challenge has been
removed — so a failing call does not always leave the challenge available,
and removal is not equivalent to a token being issued. -/
theorem c2_counterexample :
    storeGet storeA payloadA.address = some cdA ∧
    verify_signature depsTokenFail storeA 0 payloadA = (VerifyResult.tokenError, []) ∧
    storeGet (verify_signature depsTokenFail storeA 0 payloadA).2 payloadA.address = none :=
  ⟨by decide, by decide, by decide⟩

/-- C2 (amended): on every outcome up to and including signature
verification (bad request, no challenge, expired, malformed-input error,
invalid signature) the store is unchanged and the challenge remains
available; once signature verification has succeeded the challenge entry is
removed, so it is gone both when a token is issued and when session
issuance subsequently fails. -/
theorem c2_challenge_atomicity (D : VerifyDeps) (store : ChallengeStore) (now : Int)
    (p : VerifyPayload) :
    ((verify_signature D store now p).1 = VerifyResult.badRequest ∨
     (verify_signature D store now p).1 = VerifyResult.noChallenge ∨
     (verify_signature D store now p).1 = VerifyResult.expired ∨
     (∃ e, (verify_signature D store now p).1 = VerifyResult.verifyError e) ∨
     (verify_signature D store now p).1 = VerifyResult.invalidSignature →
      (verify_signature D store now p).2 = store) ∧
    ((∃ t, (verify_signature D store now p).1 = VerifyResult.ok t) ∨
     (verify_signature D store now p).1 = VerifyResult.tokenError →
      (verify_signature D store now p).2 =
        storeRemove (storeRemove store (normalize_address_format p.address)) p.address ∧
      storeGet (verify_signature D store now p).2 p.address = none) := by
  rcases verify_signature_cases D store now p with ⟨hs, hr⟩ | ⟨hs, hr⟩
  · refine ⟨fun _ => hs, fun h => ?_⟩
    rcases h with ⟨t, ht⟩ | ht <;>
      rcases hr with h1 | h1 | h1 | h1 | ⟨e, h1⟩ | h1 <;> simp_all
  · refine ⟨fun h => ?_, fun _ => ⟨hs, by rw [hs]; exact storeGet_remove _ _⟩⟩
    rcases hr with h1 | h1 | ⟨t, h1⟩ <;>
      rcases h with h2 | h2 | h2 | ⟨e, h2⟩ | h2 <;> simp_all

/-- Witness for C2 (amended): in the concrete failing-issuance run the
challenge entry is removed. -/
theorem c2_witness :
    (verify_signature depsTokenFail storeA 0 payloadA).2 =
      storeRemove (storeRemove storeA (normalize_address_format payloadA.address))
        payloadA.address ∧
    storeGet (verify_signature depsTokenFail storeA 0 payloadA).2 payloadA.address = none :=
  (c2_challenge_atomicity depsTokenFail storeA 0 payloadA).2 (Or.inr (by decide))

/-- C3: a successful `verify_and_issue_session` deletes the challenge, and
an immediately repeated call with the same credentials (no intervening
`create_challenge`, any later clock value) finds no challenge and answers
with the no-challenge `Unauthorized` response. -/
theorem c3_challenge_consumed_once (D : VerifyDeps) (store : ChallengeStore)
    (now now2 : Int) (p : VerifyPayload) (cd : ChallengeData) (tok : Bytes)
    (hA : p.address ≠ []) (hS : p.signature ≠ [])
    (hSlice : sliceOk p.address 16 = true)
    (hGet : storeGet store p.address = some cd)
    (hFresh : ¬ now - cd.timestamp > 300)
    (hVcs : verify_cardano_signature D.E D.binder p.address cd.message p.signature p.key =
      VcsResult.ok true)
    (hB32 : minSliceOk (resolveBech32 D p.address) 20 = true)
    (hTok : D.generate_token (resolveBech32 D p.address) p.stake_address = Except.ok tok) :
    verify_signature D store now p = (VerifyResult.ok tok, storeRemove store p.address) ∧
    storeGet (storeRemove store p.address) p.address = none ∧
    verify_signature D (storeRemove store p.address) now2 p =
      (VerifyResult.noChallenge, storeRemove store p.address) := by
  have hMin : minSliceOk p.address 16 = true := minSliceOk_of_sliceOk16 _ hSlice
  refine ⟨?_, storeGet_remove _ _, ?_⟩
  · unfold verify_signature
    dsimp only
    rw [normalize_address_id]
    simp [hA, hS, hMin, hGet, hFresh, hSlice, hVcs, hB32, hTok, Option.orElse,
      storeRemove_idem]
  · unfold verify_signature
    dsimp only
    rw [normalize_address_id]
    simp [hA, hS, hMin, storeGet_remove, Option.orElse]

/-- Witness for C3: the concrete successful run consumes the challenge and
the repeated call is refused. -/
theorem c3_witness :
    verify_signature depsOk storeA 0 payloadA =
      (VerifyResult.ok (strBytes "token"), storeRemove storeA payloadA.address) ∧
    storeGet (storeRemove storeA payloadA.address) payloadA.address = none ∧
    verify_signature depsOk (storeRemove storeA payloadA.address) 17 payloadA =
      (VerifyResult.noChallenge, storeRemove storeA payloadA.address) :=
  c3_challenge_consumed_once depsOk storeA 0 17 payloadA cdA (strBytes "token")
    (by decide) (by decide) (by decide) (by decide) (by decide) (by decide)
    (by decide) rfl

/-- C9: `create_challenge` answers with the 400 validation error exactly for
the empty address; every non-empty address failing the 16-byte slice
(shorter than 16 bytes, or byte 16 not a char boundary) makes it panic in
its logging before anything is stored; and `verify_and_issue_session`,
holding a stored challenge for such an address, panics as well (on the
expired-challenge `warn!` or the pre-verification `info!` slice). -/
theorem c9_short_address_panics :
    (∀ (store : ChallengeStore) (now : Int) (nonceVal : Nat) (nowRfc : Bytes),
      create_challenge store now nonceVal nowRfc [] = (CreateResult.badRequest, store)) ∧
    (∀ (store : ChallengeStore) (now : Int) (nonceVal : Nat) (nowRfc address : Bytes),
      (create_challenge store now nonceVal nowRfc address).1 = CreateResult.badRequest →
      address = []) ∧
    (∀ (store : ChallengeStore) (now : Int) (nonceVal : Nat) (nowRfc address : Bytes),
      address ≠ [] → sliceOk address 16 = false →
      create_challenge store now nonceVal nowRfc address = (CreateResult.panic, store)) ∧
    (∀ (D : VerifyDeps) (store : ChallengeStore) (now : Int) (p : VerifyPayload)
      (cd : ChallengeData),
      p.address ≠ [] → p.signature ≠ [] → sliceOk p.address 16 = false →
      storeGet store p.address = some cd →
      verify_signature D store now p = (VerifyResult.panic, store)) := by
  refine ⟨fun store now nonceVal nowRfc => rfl, ?_, ?_, ?_⟩
  · intro store now nonceVal nowRfc address h
    by_cases ha : address = []
    · exact ha
    · exfalso
      unfold create_challenge at h
      rw [normalize_address_id] at h
      cases hs : sliceOk address 16 <;> simp [ha, hs] at h
  · intro store now nonceVal nowRfc address ha hslice
    unfold create_challenge
    rw [normalize_address_id]
    simp [ha, hslice]
  · intro D store now p cd hA hS hSlice hGet
    by_cases hMin : minSliceOk p.address 16 = true
    · unfold verify_signature
      dsimp only
      rw [normalize_address_id]
      simp [hA, hS, hMin, hGet, hSlice, Option.orElse]
    · have hMin2 : minSliceOk p.address 16 = false := by
        revert hMin; cases minSliceOk p.address 16 <;> simp
      unfold verify_signature
      dsimp only
      rw [normalize_address_id]
      simp [hA, hS, hMin2, Option.orElse]

/-- Witness for C9: the five-byte address `"short"` (hex `73686f7274` is its
text, here its raw bytes) panics in `create_challenge`, and panics in
`verify_and_issue_session` when a challenge for it is in the store. -/
theorem c9_witness :
    create_challenge [] 0 7 [] [115, 104, 111, 114, 116] = (CreateResult.panic, []) ∧
    verify_signature depsOk [([115, 104, 111, 114, 116], cdA)] 0
      { address := [115, 104, 111, 114, 116], stake_address := none,
        signature := [48, 48], key := [] } =
      (VerifyResult.panic, [([115, 104, 111, 114, 116], cdA)]) :=
  ⟨(c9_short_address_panics.2.2.1) [] 0 7 [] [115, 104, 111, 114, 116]
      (by decide) (by decide),
   (c9_short_address_panics.2.2.2) depsOk [([115, 104, 111, 114, 116], cdA)] 0
      { address := [115, 104, 111, 114, 116], stake_address := none,
        signature := [48, 48], key := [] } cdA
      (by decide) (by decide) (by decide) (by decide)⟩

/-- C1 is a code bug: `verify_cardano_signature` computes the address/key
binding verdict and then discards it (auth.rs:376-392 logs and continues on
`Ok(false)` and on `Err`), so the verification outcome is the same for
every binder — and in the concrete run below the binder reports the
key/address mismatch, yet a session token is still issued, contradicting
both the spec and the code's own comment that this check "prevents
attackers from authenticating as any address with their own keys". -/
theorem c1_binding_never_enforced :
    (∀ (E : Ed25519) (b1 b2 : Bytes → Bytes → Except String Bool)
      (address message sigHex keyHex : Bytes),
      verify_cardano_signature E b1 address message sigHex keyHex =
        verify_cardano_signature E b2 address message sigHex keyHex) ∧
    verify_signature depsBindFail storeA 0 payloadA =
      (VerifyResult.ok (strBytes "token"), storeRemove storeA payloadA.address) :=
  ⟨fun E b1 b2 address message sigHex keyHex => rfl, by decide⟩

/-- C7: with a pending unexpired challenge, each malformed verification
input — signature hex undecodable, key hex undecodable, signature envelope
CBOR undecodable, wrong element count, signature element not 64 bytes —
makes `verify_and_issue_session` return the dedicated internal-error (500)
outcome with the store unchanged: a `verifyError` value, which is a
different constructor from `invalidSignature` (the 401 for a wrong
signature), from `ok` and from `panic`. -/
theorem c7_malformed_input_is_internal_error (D : VerifyDeps) (store : ChallengeStore)
    (now : Int) (p : VerifyPayload) (cd : ChallengeData)
    (hA : p.address ≠ []) (hS : p.signature ≠ [])
    (hSlice : sliceOk p.address 16 = true)
    (hGet : storeGet store p.address = some cd)
    (hFresh : ¬ now - cd.timestamp > 300) :
    (hexDecode p.signature = none →
      verify_signature D store now p =
        (VerifyResult.verifyError (VcsResult.errHex true), store)) ∧
    (∀ sb, hexDecode p.signature = some sb → hexDecode p.key = none →
      verify_signature D store now p =
        (VerifyResult.verifyError (VcsResult.errHex false), store)) ∧
    (∀ sb kb e, hexDecode p.signature = some sb → hexDecode p.key = some kb →
      extract_signature_from_cose_sign1 sb = Except.error e →
      verify_signature D store now p =
        (VerifyResult.verifyError (VcsResult.err e), store)) ∧
    (∀ sb : Bytes, sb.length ≠ 64 → decodeCbor sb = none →
      extract_signature_from_cose_sign1 sb = Except.error CoseErr.parseCbor) ∧
    (∀ arr : List CborValue, arr.length ≠ 4 →
      extractFromValue (CborValue.array arr) = Except.error CoseErr.wrongCount) ∧
    (∀ (hb pv sb2 : Bytes) (u : CborValue), sb2.length ≠ 64 →
      extractFromValue (CborValue.array
        [CborValue.bytes hb, u, CborValue.bytes pv, CborValue.bytes sb2]) =
        Except.error CoseErr.sigWrongLen) := by
  have hMin : minSliceOk p.address 16 = true := minSliceOk_of_sliceOk16 _ hSlice
  refine ⟨?_, ?_, ?_, ?_, ?_, ?_⟩
  · intro hsig
    unfold verify_signature verify_cardano_signature
    dsimp only
    rw [normalize_address_id]
    simp [hA, hS, hMin, hGet, hFresh, hSlice, hsig, Option.orElse]
  · intro sb hsig hkey
    unfold verify_signature verify_cardano_signature
    dsimp only
    rw [normalize_address_id]
    simp [hA, hS, hMin, hGet, hFresh, hSlice, hsig, hkey, Option.orElse]
  · intro sb kb e hsig hkey hext
    unfold verify_signature verify_cardano_signature
    dsimp only
    rw [normalize_address_id]
    simp [hA, hS, hMin, hGet, hFresh, hSlice, hsig, hkey, hext, Option.orElse]
  · intro sb hlen hdec
    unfold extract_signature_from_cose_sign1
    simp [hlen, hdec]
  · intro arr hlen
    rcases arr with _ | ⟨a0, _ | ⟨a1, _ | ⟨a2, _ | ⟨a3, _ | ⟨a4, rest⟩⟩⟩⟩⟩ <;>
      first
        | rfl
        | simp at hlen
  · intro hb pv sb2 u hlen
    simp [extractFromValue, hlen]

/-- A `/verify` request whose signature field is the non-hex text `"zz"`. -/
def payloadBadHex : VerifyPayload :=
  { address := addrA, stake_address := none, signature := [122, 122], key := keyHexRaw32 }

/-- Witness for C7: the concrete non-hex signature yields the 500
internal-error outcome with the store unchanged. -/
theorem c7_witness :
    verify_signature depsOk storeA 0 payloadBadHex =
      (VerifyResult.verifyError (VcsResult.errHex true), storeA) :=
  (c7_malformed_input_is_internal_error depsOk storeA 0 payloadBadHex cdA
    (by decide) (by decide) (by decide) (by decide) (by decide)).1 (by decide)

/-- CBOR bytes of `[null, {}, null, h64-zero-bytes]`: a 4-element COSE_Sign1
array with a null protected header, a null payload, and a 64-byte
signature. -/
def c5NullHeaderEnvelope : Bytes := [0x84, 0xF6, 0xA0, 0xF6, 0x58, 0x40] ++ List.replicate 64 0

/-- Counterexample to C5: the claim admits a null protected header
("payload/protected_header are not byte-strings-or-null" is its only
type-failure condition, "and a null protected header is likewise
accepted"), but on this envelope — 4 elements, 64-byte signature, null
payload, null protected header — `extract_signature_from_cose_sign1`
fails: the protected-header position accepts only a byte string. -/
theorem c5_counterexample :
    decodeCbor c5NullHeaderEnvelope = some (CborValue.array
      [CborValue.null, CborValue.map [], CborValue.null,
       CborValue.bytes (List.replicate 64 0)]) ∧
    extract_signature_from_cose_sign1 c5NullHeaderEnvelope =
      Except.error CoseErr.protectedNotBytes :=
  ⟨rfl, rfl⟩

/-- C5 (amended): a 64-byte input is returned as the raw signature with
empty payload and protected header; any other input is CBOR-decoded and
destructured, failing whenever it is not a 4-element array, the signature
element is not a byte string of exactly 64 bytes, the payload is not a
byte string or null (null payload accepted and treated as empty), or the
protected header is not a byte string — in particular, unlike the original
claim, a null protected header is rejected. -/
theorem c5_envelope_parsing (b : Bytes)
    (h64 : b.length = 64) :
    extract_signature_from_cose_sign1 b = Except.ok (b, [], []) ∧
    (∀ b2 : Bytes, b2.length ≠ 64 → extract_signature_from_cose_sign1 b2 =
      (match decodeCbor b2 with
       | none => Except.error CoseErr.parseCbor
       | some v => extractFromValue v)) ∧
    (∀ arr : List CborValue, arr.length ≠ 4 →
      extractFromValue (CborValue.array arr) = Except.error CoseErr.wrongCount) ∧
    (∀ (hb pb s : Bytes) (u : CborValue), s.length = 64 →
      extractFromValue (CborValue.array
        [CborValue.bytes hb, u, CborValue.bytes pb, CborValue.bytes s]) =
        Except.ok (s, pb, hb)) ∧
    (∀ (hb s : Bytes) (u : CborValue), s.length = 64 →
      extractFromValue (CborValue.array
        [CborValue.bytes hb, u, CborValue.null, CborValue.bytes s]) =
        Except.ok (s, [], hb)) ∧
    (∀ (hb s : Bytes) (u pv : CborValue), s.length ≠ 64 →
      (pv = CborValue.null ∨ ∃ pb, pv = CborValue.bytes pb) →
      extractFromValue (CborValue.array
        [CborValue.bytes hb, u, pv, CborValue.bytes s]) =
        Except.error CoseErr.sigWrongLen) ∧
    (∀ (hb : Bytes) (u pv s3 : CborValue),
      (∀ pb, pv ≠ CborValue.bytes pb) → pv ≠ CborValue.null →
      extractFromValue (CborValue.array [CborValue.bytes hb, u, pv, s3]) =
        Except.error CoseErr.payloadNotBytes) ∧
    (∀ a0 u pv s3 : CborValue, (∀ hb, a0 ≠ CborValue.bytes hb) →
      extractFromValue (CborValue.array [a0, u, pv, s3]) =
        Except.error CoseErr.protectedNotBytes) ∧
    (∀ v : CborValue, (∀ arr, v ≠ CborValue.array arr) →
      extractFromValue v = Except.error CoseErr.notArray) ∧
    (∀ (hb : Bytes) (u pv s3 : CborValue),
      (pv = CborValue.null ∨ ∃ pb, pv = CborValue.bytes pb) →
      (∀ sb, s3 ≠ CborValue.bytes sb) →
      extractFromValue (CborValue.array [CborValue.bytes hb, u, pv, s3]) =
        Except.error CoseErr.sigNotBytes) := by
  refine ⟨?_, ?_, ?_, ?_, ?_, ?_, ?_, ?_, ?_, ?_⟩
  · unfold extract_signature_from_cose_sign1
    simp [h64]
  · intro b2 hlen
    unfold extract_signature_from_cose_sign1
    simp [hlen]
  · intro arr hlen
    rcases arr with _ | ⟨a0, _ | ⟨a1, _ | ⟨a2, _ | ⟨a3, _ | ⟨a4, rest⟩⟩⟩⟩⟩ <;>
      first
        | rfl
        | simp at hlen
  · intro hb pb s u hs
    simp [extractFromValue, hs]
  · intro hb s u hs
    simp [extractFromValue, hs]
  · intro hb s u pv hs hpv
    rcases hpv with h | ⟨pb, h⟩ <;> subst h <;> simp [extractFromValue, hs]
  · intro hb u pv s3 hnb hnn
    cases pv with
    | bytes pb => exact absurd rfl (hnb pb)
    | null => exact absurd rfl hnn
    | _ => rfl
  · intro a0 u pv s3 hnb
    cases a0 with
    | bytes hb => exact absurd rfl (hnb hb)
    | _ => rfl
  · intro v hna
    cases v with
    | array arr => exact absurd rfl (hna arr)
    | _ => rfl
  · intro hb u pv s3 hpv hns
    rcases hpv with h | ⟨pb, h⟩ <;> subst h <;>
      cases s3 <;> first | rfl | exact absurd rfl (hns _)

/-- Witness for C5 (amended): a raw 64-byte input parses as the raw
signature, and a structured envelope with a byte-string header and a null
payload parses to that signature with empty payload. -/
theorem c5_witness :
    extract_signature_from_cose_sign1 (List.replicate 64 1) =
      Except.ok (List.replicate 64 1, [], []) ∧
    extractFromValue (CborValue.array
      [CborValue.bytes [5], CborValue.map [], CborValue.null,
       CborValue.bytes (List.replicate 64 2)]) =
      Except.ok (List.replicate 64 2, [], [5]) :=
  ⟨(c5_envelope_parsing (List.replicate 64 1) (by decide)).1,
   (c5_envelope_parsing (List.replicate 64 1) (by decide)).2.2.2.2.1 [5]
      (List.replicate 64 2) (CborValue.map []) (by decide)⟩

/-- Modelled from the spec: the candidate list of §4.3 exactly as the claim
orders it — (1) the COSE `Sig_structure`, applicable only if protected
headers or payload are non-empty; (2) the raw challenge-message bytes;
(3) the embedded payload when it equals the message bytes; (4) the
hex-text encoding of the message bytes; (5) the hex-decoded payload when it
decodes to the message bytes. -/
def specCandidates (message payload protected_headers : Bytes) : List (Bool × Bytes) :=
  [ (decide (protected_headers ≠ []) || decide (payload ≠ []),
     sigStructureBytes protected_headers payload),
    (true, message),
    (decide (payload = message), payload),
    (true, hexEncode message),
    (match hexDecode payload with
     | some d => decide (d = message)
     | none => false,
     match hexDecode payload with
     | some d => d
     | none => []) ]

/-- Modelled from the spec: try an ordered candidate list, returning true
on the first applicable candidate whose Ed25519 verification succeeds and
false only after every applicable candidate has been tried and failed. -/
def firstSuccess (E : Ed25519) (key signature : Bytes) : List (Bool × Bytes) → Bool
  | [] => false
  | (applicable, candidate) :: rest =>
    if applicable && E.verify key candidate signature then true
    else firstSuccess E key signature rest

/-- C6: the verifier's candidate loop computes exactly the first-success
evaluation of the claimed five-candidate sequence, for every Ed25519
oracle and all inputs.  (The code additionally guards candidates 3 and 5
with `payload` non-emptiness and candidate 5 with UTF-8 validity of the
payload; both guards are outcome-irrelevant: an empty payload equal to the
message duplicates candidate 2, and hex-decodability already forces the
payload to be ASCII, hence valid UTF-8.) -/
theorem c6_candidate_sequence (E : Ed25519)
    (key message payload protected_headers signature : Bytes) :
    tryCandidates E key message payload protected_headers signature =
      firstSuccess E key signature (specCandidates message payload protected_headers) := by
  unfold tryCandidates firstSuccess specCandidates
  dsimp only
  by_cases hp : payload = []
  · subst hp
    by_cases hm : message = []
    · subst hm
      simp [hexEncode]
      cases h1 : E.verify key (sigStructureBytes protected_headers []) signature <;>
        cases h2 : E.verify key [] signature <;>
          simp [h1, h2, firstSuccess, hexDecode]
    · have hm2 : ¬ ([] = message) := fun h => hm h.symm
      simp [hm2, hexDecode, firstSuccess]
  · have hp1 : decide (payload ≠ []) = true := by simp [hp]
    simp only [hp1, Bool.or_true, Bool.true_and]
    cases hd : hexDecode payload with
    | none => simp [hd, hp, firstSuccess]
    | some d =>
      have hu : utf8Valid payload = true := hexDecode_utf8Valid payload d hd
      simp [hd, hu, hp, firstSuccess]

/-- The structured 4-element envelope with empty protected headers, empty
unprotected headers, empty payload, and the given signature, serialized
with the CBOR encoder (the claim's second envelope shape). -/
def structuredEnvelope (sig : Bytes) : Bytes :=
  encodeItem (CborValue.array
    [CborValue.bytes [], CborValue.map [], CborValue.bytes [], CborValue.bytes sig])

/-- C8: a 64-byte signature submitted as a raw envelope and as a structured
4-element envelope with empty payload and headers parse to the same
(signature, payload, protected-header) triple, and drive
`verify_cardano_signature` to identical outcomes for every Ed25519 oracle,
binder, address, message and key. -/
theorem c8_raw_and_structured_envelopes_agree (sig : Bytes) (h64 : sig.length = 64)
    (hbytes : ∀ b ∈ sig, b < 256) :
    extract_signature_from_cose_sign1 (structuredEnvelope sig) = Except.ok (sig, [], []) ∧
    extract_signature_from_cose_sign1 sig = Except.ok (sig, [], []) ∧
    ∀ (E : Ed25519) (binder : Bytes → Bytes → Except String Bool)
      (address message keyHex : Bytes),
      verify_cardano_signature E binder address message
          (hexEncode (structuredEnvelope sig)) keyHex =
        verify_cardano_signature E binder address message (hexEncode sig) keyHex := by
  have hse : structuredEnvelope sig = [0x84, 0x40, 0xA0, 0x40, 0x58, 0x40] ++ sig := by
    simp [structuredEnvelope, encodeItem, encodeItems, encodePairs, encodeArg, h64]
  have hdec : decodeCbor ([0x84, 0x40, 0xA0, 0x40, 0x58, 0x40] ++ sig) =
      some (CborValue.array
        [CborValue.bytes [], CborValue.map [], CborValue.bytes [], CborValue.bytes sig]) := by
    have hle : 64 ≤ sig.length := by omega
    have htake : sig.take 64 = sig := by rw [← h64]; exact List.take_length sig
    have hdrop : sig.drop 64 = [] := by rw [← h64]; exact List.drop_length sig
    have hlen : ([0x84, 0x40, 0xA0, 0x40, 0x58, 0x40] ++ sig).length = sig.length + 6 := by
      simp [List.length_append]
    unfold decodeCbor
    rw [hlen]
    simp only [List.cons_append, List.nil_append]
    simp [decodeItem, decodeItems, decodePairs, decodeHead, hle, htake, hdrop]
  have hlen70 : (structuredEnvelope sig).length = 70 := by
    rw [hse]; simp [List.length_append, h64]
  have hx1 : extract_signature_from_cose_sign1 (structuredEnvelope sig) =
      Except.ok (sig, [], []) := by
    unfold extract_signature_from_cose_sign1
    rw [hlen70, hse, hdec]
    simp [extractFromValue, h64]
  have hx2 : extract_signature_from_cose_sign1 sig = Except.ok (sig, [], []) := by
    unfold extract_signature_from_cose_sign1
    simp [h64]
  refine ⟨hx1, hx2, ?_⟩
  intro E binder address message keyHex
  have hb1 : ∀ b ∈ structuredEnvelope sig, b < 256 := by
    rw [hse]
    intro b hb
    rcases List.mem_append.mp hb with h | h
    · simp at h
      rcases h with rfl | rfl | rfl | rfl | rfl | rfl <;> decide
    · exact hbytes b h
  simp only [verify_cardano_signature, hexDecode_hexEncode _ hb1,
    hexDecode_hexEncode _ hbytes, hx1, hx2]

/-- Witness for C8: the all-sevens 64-byte signature, in both envelope
shapes, parses to the same triple. -/
theorem c8_witness :
    extract_signature_from_cose_sign1 (structuredEnvelope (List.replicate 64 7)) =
      Except.ok (List.replicate 64 7, [], []) ∧
    extract_signature_from_cose_sign1 (List.replicate 64 7) =
      Except.ok (List.replicate 64 7, [], []) :=
  ⟨(c8_raw_and_structured_envelopes_agree (List.replicate 64 7) (by decide)
      (fun b hb => by simp at hb; omega)).1,
   (c8_raw_and_structured_envelopes_agree (List.replicate 64 7) (by decide)
      (fun b hb => by simp at hb; omega)).2.1⟩
